import Mathlib

/-!
Shallow embedding of `src/towncrier/build.py` (the `build` command of
towncrier): flag validation, the main pipeline (`__main`), the
`should_remove_fragment_files` decision, and the `_main` error wrapper.

External collaborators (`load_config_from_options`, `find_fragments`,
`split_fragments`, `render_fragments`, `append_to_newsfile`, git staging and
removal, `click` echo/confirm) are parameterised through an environment
record: the pipeline records every externally visible action as an `Effect`
in an ordered trace, and the environment supplies each fallible call's
outcome.
-/

namespace Towncrier

/-- A parsed piece of a Python format string: literal text or one of the
three substitution fields used by `build.py` (`name`, `version`,
`project_date` written inside braces).  Configuration loading is external to
`build.py`, so format strings arrive here pre-parsed; the empty string is the
empty list of parts. -/
inductive FmtPart where
  | lit (s : String)
  | name
  | version
  | projectDate
  deriving DecidableEq, Repr

/-- Value of one part under Python `fmt.format(name=n, version=v, project_date=d)`. -/
def renderFmtPart (n v d : String) : FmtPart → String
  | .lit s => s
  | .name => n
  | .version => v
  | .projectDate => d

/-- Python `fmt.format(name=n, version=v, project_date=d)` over a parsed
format string: substitutes exactly the keys `name`, `version` and
`project_date`. -/
def renderFmt (parts : List FmtPart) (n v d : String) : String :=
  String.join (parts.map (renderFmtPart n v d))

/-- The verbatim source text of a format string, substitution fields written
back in brace syntax. -/
def sourceTextPart : FmtPart → String
  | .lit s => s
  | .name => "\x7bname\x7d"
  | .version => "\x7bversion\x7d"
  | .projectDate => "\x7bproject_date\x7d"

/-- The verbatim source text of a whole format string. -/
def sourceText (parts : List FmtPart) : String :=
  String.join (parts.map sourceTextPart)

/-- Python string repetition `s * n`. -/
def pyStrMul (s : String) (n : Nat) : String :=
  String.join (List.replicate n s)

/-- Python `os.path.join`; `os.path.abspath` is abstracted as the identity
(no claim depends on path normalisation). -/
def pathJoin (parts : List String) : String :=
  String.intercalate "/" parts

/-- The Python value of `config.title_format` as `build.py` sees it: `None`
(unset), `False` (explicitly disabled), or a string (pre-parsed; the empty
string is `pyStr []`). -/
inductive PyTitleFormat where
  | pyNone
  | pyFalse
  | pyStr (parts : List FmtPart)
  deriving DecidableEq, Repr

/-- Python truthiness of a `title_format` value: only a nonempty string is
truthy (`None`, `False` and `""` are all falsy). -/
def pyTruthy : PyTitleFormat → Bool
  | .pyStr parts => !parts.isEmpty
  | _ => false

/-- The configuration fields of `config` that `build.py` reads. -/
structure Config where
  template : String
  directory : Option String
  package_dir : String
  package : String
  name : String
  version : Option String
  title_format : PyTitleFormat
  underlines : List String
  single_file : Bool
  filename : List FmtPart
  deriving DecidableEq, Repr

/-- Exceptions that can cross `build.py`'s frame: `ConfigError` (caught by
`_main`), other exceptions from external calls (propagate), and
`click.Abort` raised by `ctx.abort()`. -/
inductive Err where
  | configError (msg : String)
  | ioError (msg : String)
  | aborted
  deriving DecidableEq, Repr

/-- One externally visible action of the pipeline, in execution order.
`echo` is `click.echo` (the flag tells whether it goes to standard error);
`mergeWrite` is the `append_to_newsfile` call (the newsfile write);
`stageNewsfile` and `removeFiles` are the git calls; `confirmPrompt` is
`click.confirm`. -/
inductive Effect where
  | echo (msg : String) (toStderr : Bool)
  | loadTemplate (path : String)
  | findFragments (base : String)
  | splitFragments
  | renderFragments (render_title : Bool)
  | mergeWrite (newsFile : String) (topLine : String) (content : String)
  | stageNewsfile (newsFile : String)
  | confirmPrompt (question : String)
  | removeFiles (files : List String)
  deriving DecidableEq, Repr

/-- The processed arguments `__main` receives (the `--dir`/`--config`
options are consumed by `load_config_from_options`, which the environment
models). -/
structure Args where
  draft : Bool
  project_name : Option String
  project_version : Option String
  project_date : Option String
  answer_yes : Bool
  answer_keep : Bool

/-- The raw command-line flag values before click option processing: a flag
option's value is `none` (not given) or `some true` (given). -/
structure CliArgs where
  draft : Bool
  project_name : Option String
  project_version : Option String
  project_date : Option String
  answer_yes : Option Bool
  answer_keep : Option Bool

/-- Outcomes of the external calls `build.py` makes, one run's worth.
`renderResult` is the text `render_fragments` returns, as a function of the
`render_title` flag `build.py` passes it (its other arguments are fixed for
the run). -/
structure Env where
  configResult : Except Err (String × Config)
  templateResult : Except Err String
  findResult : Except Err (List String × List String)
  renderResult : Bool → String
  gitVersion : String
  gitProjectName : String
  today : String
  mergeResult : Except Err Unit
  stageResult : Except Err Unit
  confirmAnswer : Bool

/-- The three values `build.py` computes at lines 199 to 214: the rendered
top line and the two booleans steering title rendering. -/
structure TitleDecision where
  top_line : String
  render_title_separately : Bool
  render_title_with_fragments : Bool
  deriving DecidableEq, Repr

/-- Lines 199 to 214 of `build.py`: `if config.title_format:` (truthy, i.e.
a nonempty string) renders the top line and marks it for separate rendering;
`elif config.title_format is False:` disables the title entirely; the final
`else` (reached for `None` and for the empty string) leaves the title to be
rendered inline with the fragments. -/
def titleDecision (tf : PyTitleFormat) (n v d : String) : TitleDecision :=
  if pyTruthy tf then
    match tf with
    | .pyStr parts =>
        { top_line := renderFmt parts n v d
          render_title_separately := true
          render_title_with_fragments := false }
    | _ =>
        { top_line := "", render_title_separately := false
          render_title_with_fragments := false }
  else if tf = .pyFalse then
    { top_line := "", render_title_separately := false
      render_title_with_fragments := false }
  else
    { top_line := "", render_title_separately := false
      render_title_with_fragments := true }

/-- The three title modes named by the specification. -/
inductive TitleMode where
  | separate
  | omitted
  | inlineDefault
  deriving DecidableEq, Repr

/-- The title mode the code's two booleans encode: separately rendered,
woven into the fragment rendering, or omitted entirely. -/
def codeTitleMode (td : TitleDecision) : TitleMode :=
  if td.render_title_separately then .separate
  else if td.render_title_with_fragments then .inlineDefault
  else .omitted

/-- The title-mode switch exactly as the claim states it: templated (truthy)
string means separate; explicitly empty or disabled means omitted; unset
means inline default.  Stated from the claim's words, for comparison with
the code. -/
def spec_claimed_title_mode : PyTitleFormat → TitleMode
  | .pyStr parts => if parts.isEmpty then .omitted else .separate
  | .pyFalse => .omitted
  | .pyNone => .inlineDefault

/-- The amended title-mode switch: a nonempty (truthy) string means
separate; explicitly disabled (`False`) means omitted; unset (`None`) or the
empty string means inline default.  Stated from the amended claim's words,
for comparison with the code. -/
def spec_amended_title_mode : PyTitleFormat → TitleMode
  | .pyStr parts => if parts.isEmpty then .inlineDefault else .separate
  | .pyFalse => .omitted
  | .pyNone => .inlineDefault

/-- One output action of `should_remove_fragment_files`: an echoed line or
the `click.confirm` prompt. -/
inductive RemovalOut where
  | line (s : String)
  | confirm (question : String)
  deriving DecidableEq, Repr

/-- Lines 283 to 308 of `build.py`.  Returns the decision (`true` means
remove) and the ordered outputs.  The `try`/`finally` prints the file list
after the branch header in every non-empty case, including `answer_keep`;
`answer_yes or click.confirm(...)` short-circuits, so the prompt is issued
only when `answer_yes` is not set.  `confirm_answer` is the user's reply to
the prompt when it is issued. -/
def should_remove_fragment_files (fragment_filenames : List String)
    (answer_yes answer_keep : Bool) (confirm_answer : Bool) :
    Bool × List RemovalOut :=
  if fragment_filenames.isEmpty then
    (false, [.line "No news fragments to remove. Skipping!"])
  else if answer_keep then
    (false, .line "Keeping the following files:" ::
      fragment_filenames.map RemovalOut.line)
  else
    let header : RemovalOut :=
      if answer_yes then .line "Removing the following files:"
      else .line "I want to remove the following files:"
    let outs := header :: fragment_filenames.map RemovalOut.line
    if answer_yes then (true, outs)
    else (confirm_answer, outs ++ [.confirm "Is it okay if I remove those files?"])

/-- Embeds a removal-decision output into the main effect trace
(`click.echo` without `err` goes to standard output). -/
def removalOutToEffect : RemovalOut → Effect
  | .line s => .echo s false
  | .confirm q => .confirmPrompt q

/-- Lines 176 to 181: the version comes from the option, else the config,
else `get_version(...).strip()`. -/
def resolveVersion (arg : Option String) (cfg : Config) (env : Env) : String :=
  match arg with
  | some v => v
  | none =>
    match cfg.version with
    | some v => v
    | none => env.gitVersion.trim

/-- Lines 183 to 194: the name comes from the option, else a truthy
`config.name`, else `get_project_name` when a package is configured, else
the empty string. -/
def resolveName (arg : Option String) (cfg : Config) (env : Env) : String :=
  match arg with
  | some n => n
  | none =>
    if cfg.name ≠ "" then cfg.name
    else if cfg.package ≠ "" then env.gitProjectName
    else ""

/-- Lines 196 to 197: the date comes from the option, else
`_get_date().strip()`. -/
def resolveDate (arg : Option String) (env : Env) : String :=
  match arg with
  | some d => d
  | none => env.today.trim

/-- Everything lines 145 to 239 of `__main` have computed by the time the
draft check runs. -/
structure Prepared where
  base_directory : String
  config : Config
  fragment_filenames : List String
  project_name : String
  project_version : String
  project_date : String
  top_line : String
  content : String

/-- Lines 145 to 239 of `__main`: config load, template load, fragment
discovery, splitting, metadata resolution, the title decision, fragment
rendering, and content assembly.  `to_err` is the `err` flag of the progress
echoes (`to_err = draft` at line 146).  Fails exactly when one of the
external calls fails. -/
def buildContent (env : Env) (args : Args) (to_err : Bool) :
    List Effect × Except Err Prepared :=
  match env.configResult with
  | .error e => ([], .error e)
  | .ok (base_directory, config) =>
    let tr1 := [Effect.echo "Loading template..." to_err,
                Effect.loadTemplate config.template]
    match env.templateResult with
    | .error e => (tr1, .error e)
    | .ok _template =>
      let fragment_base_directory :=
        match config.directory with
        | some d => d
        | none => pathJoin [base_directory, config.package_dir, config.package]
      let tr2 := tr1 ++ [Effect.echo "Finding news fragments..." to_err,
                         Effect.findFragments fragment_base_directory]
      match env.findResult with
      | .error e => (tr2, .error e)
      | .ok (_fragment_contents, fragment_filenames) =>
        let tr3 := tr2 ++ [Effect.echo "Rendering news fragments..." to_err,
                           Effect.splitFragments]
        let project_version := resolveVersion args.project_version config env
        let project_name := resolveName args.project_name config env
        let project_date := resolveDate args.project_date env
        let td := titleDecision config.title_format
          project_name project_version project_date
        let rendered := env.renderResult td.render_title_with_fragments
        let tr4 := tr3 ++ [Effect.renderFragments td.render_title_with_fragments]
        let content :=
          if td.render_title_separately then
            String.intercalate "\n"
              [td.top_line,
               pyStrMul (config.underlines.headD "") td.top_line.length,
               rendered]
          else rendered
        (tr4, .ok { base_directory := base_directory, config := config,
                    fragment_filenames := fragment_filenames,
                    project_name := project_name,
                    project_version := project_version,
                    project_date := project_date,
                    top_line := td.top_line, content := content })

/-- Lines 251 to 258: in per-version mode (`config.single_file is False`)
the target name is the filename format with `name`, `version` and
`project_date` substituted; otherwise the configured filename is used as it
stands. -/
def newsFileName (cfg : Config) (project_name project_version project_date : String) :
    String :=
  if cfg.single_file = false then
    renderFmt cfg.filename project_name project_version project_date
  else
    sourceText cfg.filename

/-- The draft notice of lines 242 to 246. -/
def draftNotice : String :=
  "Draft only -- nothing has been written.\nWhat is seen below is what would be written.\n"

/-- The whole of `__main` (lines 132 to 280): build the content; in draft
mode echo it and return; otherwise write the newsfile, stage it, run the
removal decision and, when it says to remove, delete the fragments. -/
def mainRun (env : Env) (args : Args) : List Effect × Except Err Unit :=
  let to_err := args.draft
  match buildContent env args to_err with
  | (tr, .error e) => (tr, .error e)
  | (tr, .ok p) =>
    if args.draft then
      (tr ++ [Effect.echo draftNotice to_err, Effect.echo p.content false], .ok ())
    else
      let news_file := newsFileName p.config
        p.project_name p.project_version p.project_date
      let tr6 := tr ++ [Effect.echo "Writing to newsfile..." to_err,
                        Effect.mergeWrite news_file p.top_line p.content]
      match env.mergeResult with
      | .error e => (tr6, .error e)
      | .ok _ =>
        let tr7 := tr6 ++ [Effect.echo "Staging newsfile..." to_err,
                           Effect.stageNewsfile news_file]
        match env.stageResult with
        | .error e => (tr7, .error e)
        | .ok _ =>
          let dec := should_remove_fragment_files p.fragment_filenames
            args.answer_yes args.answer_keep env.confirmAnswer
          let tr8 := tr7 ++ dec.2.map removalOutToEffect
          let removalEffects :=
            if dec.1 then
              [Effect.echo "Removing news fragments..." to_err,
               Effect.removeFiles p.fragment_filenames]
            else []
          (tr8 ++ removalEffects ++ [Effect.echo "Done!" to_err], .ok ())

/-- How a run of `_main` ends: a normal return maps to exit code 0 through
click, the `ConfigError` handler exits with code 1, `ctx.abort()` ends the
run as aborted, and any other exception propagates out of `_main`. -/
inductive ExitResult where
  | exitCode (n : Nat)
  | aborted
  | uncaught (e : Err)
  deriving DecidableEq, Repr

/-- Lines 103 to 129 (`_main`): run `__main`; catch `ConfigError`, print it
to standard error and exit with code 1; let every other exception
propagate. -/
def mainCatchRun (env : Env) (args : Args) : List Effect × ExitResult :=
  match mainRun env args with
  | (tr, .ok _) => (tr, .exitCode 0)
  | (tr, .error (.configError m)) => (tr ++ [Effect.echo m true], .exitCode 1)
  | (tr, .error e) => (tr, .uncaught e)

/-- The exit behaviour the claim states, as a function of the pipeline
outcome: configuration error means exit code 1, success means exit code 0,
anything else does not exit through the configuration-error path.  Stated
from the claim's words, for comparison with `mainCatchRun`. -/
def spec_exit_of : Except Err Unit → ExitResult
  | .ok _ => .exitCode 0
  | .error (.configError _) => .exitCode 1
  | .error e => .uncaught e

/-- The error report the claim states: exactly a configuration error is
reported to the user (on standard error).  Stated from the claim's words. -/
def spec_config_report : Except Err Unit → List Effect
  | .error (.configError m) => [Effect.echo m true]
  | _ => []

/-- Lines 32 to 41 (`_validate_answer`): a click option callback; when the
other confirmation flag is already truthy in `ctx.params` and this flag's
value is truthy, echo the conflict message and abort. -/
def validate_answer (other_value : Option Bool) (value : Option Bool) :
    List Effect × Except Err (Option Bool) :=
  if other_value.getD false && value.getD false then
    ([Effect.echo "You can not choose both --yes and --keep at the same time" false],
     .error .aborted)
  else ([], .ok value)

/-- Click option processing of the two confirmation flags, in declaration
order: when `--yes` is processed, `answer_keep` is not yet in `ctx.params`
(so its lookup yields `None`); when `--keep` is processed it sees the
processed `--yes` value. -/
def clickProcess (answer_yes answer_keep : Option Bool) :
    List Effect × Except Err (Bool × Bool) :=
  match validate_answer none answer_yes with
  | (tr, .error e) => (tr, .error e)
  | (tr1, .ok y) =>
    match validate_answer y answer_keep with
    | (tr2, .error e) => (tr1 ++ tr2, .error e)
    | (tr2, .ok k) => (tr1 ++ tr2, .ok (y.getD false, k.getD false))

/-- A full command invocation: click processes the flag options (running
`_validate_answer`) before the command body `_main` is entered; `ctx.abort`
ends the run without any pipeline work. -/
def cliRun (env : Env) (cargs : CliArgs) : List Effect × ExitResult :=
  match clickProcess cargs.answer_yes cargs.answer_keep with
  | (tr, .error _) => (tr, .aborted)
  | (tr, .ok (y, k)) =>
    let r := mainCatchRun env
      { draft := cargs.draft, project_name := cargs.project_name,
        project_version := cargs.project_version,
        project_date := cargs.project_date,
        answer_yes := y, answer_keep := k }
    (tr ++ r.1, r.2)

/-- Effects that are pipeline work rather than console output. -/
def isEchoEffect : Effect → Bool
  | .echo _ _ => true
  | _ => false

/-- The non-console steps of a trace, in order. -/
def workEffects (tr : List Effect) : List Effect :=
  tr.filter fun e => !isEchoEffect e

/-- Effects that write to or delete from the filesystem or the VCS. -/
def isWriteEffect : Effect → Bool
  | .mergeWrite _ _ _ => true
  | .stageNewsfile _ => true
  | .removeFiles _ => true
  | _ => false

/-- The fragment-removal effect. -/
def isRemoveEffect : Effect → Bool
  | .removeFiles _ => true
  | _ => false

/-- Fragment work in the sense of the flag-conflict claim: discovery,
parsing/splitting, rendering, the merge, and everything downstream of it. -/
def isFragmentWorkEffect : Effect → Bool
  | .loadTemplate _ => true
  | .findFragments _ => true
  | .splitFragments => true
  | .renderFragments _ => true
  | .mergeWrite _ _ _ => true
  | .stageNewsfile _ => true
  | .confirmPrompt _ => true
  | .removeFiles _ => true
  | .echo _ _ => false

/-- The confirmation prompt among removal-decision outputs. -/
def isConfirmOut : RemovalOut → Bool
  | .confirm _ => true
  | .line _ => false

/-- Scans a trace in order and checks that no fragment removal happens
before the first newsfile write: `true` when the trace reaches its end or a
`mergeWrite` without first meeting a `removeFiles`. -/
def removalAfterMerge : List Effect → Bool
  | [] => true
  | e :: rest =>
    match e with
    | .mergeWrite _ _ _ => true
    | .removeFiles _ => false
    | _ => removalAfterMerge rest

@[simp] theorem removalAfterMerge_nil : removalAfterMerge [] = true := rfl

@[simp] theorem removalAfterMerge_echo (s : String) (b : Bool) (r : List Effect) :
    removalAfterMerge (Effect.echo s b :: r) = removalAfterMerge r := rfl

@[simp] theorem removalAfterMerge_loadTemplate (p : String) (r : List Effect) :
    removalAfterMerge (Effect.loadTemplate p :: r) = removalAfterMerge r := rfl

@[simp] theorem removalAfterMerge_findFragments (p : String) (r : List Effect) :
    removalAfterMerge (Effect.findFragments p :: r) = removalAfterMerge r := rfl

@[simp] theorem removalAfterMerge_splitFragments (r : List Effect) :
    removalAfterMerge (Effect.splitFragments :: r) = removalAfterMerge r := rfl

@[simp] theorem removalAfterMerge_renderFragments (b : Bool) (r : List Effect) :
    removalAfterMerge (Effect.renderFragments b :: r) = removalAfterMerge r := rfl

@[simp] theorem removalAfterMerge_mergeWrite (f t c : String) (r : List Effect) :
    removalAfterMerge (Effect.mergeWrite f t c :: r) = true := rfl

@[simp] theorem isRemoveEffect_echo (s : String) (b : Bool) :
    isRemoveEffect (Effect.echo s b) = false := rfl

@[simp] theorem isRemoveEffect_loadTemplate (p : String) :
    isRemoveEffect (Effect.loadTemplate p) = false := rfl

@[simp] theorem isRemoveEffect_findFragments (p : String) :
    isRemoveEffect (Effect.findFragments p) = false := rfl

@[simp] theorem isRemoveEffect_splitFragments :
    isRemoveEffect Effect.splitFragments = false := rfl

@[simp] theorem isRemoveEffect_renderFragments (b : Bool) :
    isRemoveEffect (Effect.renderFragments b) = false := rfl

@[simp] theorem isRemoveEffect_mergeWrite (f t c : String) :
    isRemoveEffect (Effect.mergeWrite f t c) = false := rfl

@[simp] theorem isWriteEffect_echo (s : String) (b : Bool) :
    isWriteEffect (Effect.echo s b) = false := rfl

@[simp] theorem isWriteEffect_loadTemplate (p : String) :
    isWriteEffect (Effect.loadTemplate p) = false := rfl

@[simp] theorem isWriteEffect_findFragments (p : String) :
    isWriteEffect (Effect.findFragments p) = false := rfl

@[simp] theorem isWriteEffect_splitFragments :
    isWriteEffect Effect.splitFragments = false := rfl

@[simp] theorem isWriteEffect_renderFragments (b : Bool) :
    isWriteEffect (Effect.renderFragments b) = false := rfl

@[simp] theorem isEchoEffect_echo (s : String) (b : Bool) :
    isEchoEffect (Effect.echo s b) = true := rfl

@[simp] theorem isEchoEffect_loadTemplate (p : String) :
    isEchoEffect (Effect.loadTemplate p) = false := rfl

@[simp] theorem isEchoEffect_findFragments (p : String) :
    isEchoEffect (Effect.findFragments p) = false := rfl

@[simp] theorem isEchoEffect_splitFragments :
    isEchoEffect Effect.splitFragments = false := rfl

@[simp] theorem isEchoEffect_renderFragments (b : Bool) :
    isEchoEffect (Effect.renderFragments b) = false := rfl

/-- The trace of the preparation phase contains neither a newsfile write nor
a fragment removal, so the removal-after-merge scan passes straight through
it. -/
theorem buildContent_trace_scan (env : Env) (args : Args) (c : Bool)
    (rest : List Effect) :
    removalAfterMerge ((buildContent env args c).1 ++ rest) =
      removalAfterMerge rest := by
  rcases hc : env.configResult with e | ⟨base, config⟩
  · simp [buildContent, hc]
  · rcases ht : env.templateResult with e | tmpl
    · simp [buildContent, hc, ht]
    · rcases hf : env.findResult with e | ⟨contents, filenames⟩
      · simp [buildContent, hc, ht, hf]
      · simp [buildContent, hc, ht, hf]

/-- The trace of the preparation phase contains no fragment removal. -/
theorem buildContent_trace_noRemove (env : Env) (args : Args) (c : Bool) :
    ((buildContent env args c).1.all fun x => !isRemoveEffect x) = true := by
  rcases hc : env.configResult with e | ⟨base, config⟩
  · simp [buildContent, hc]
  · rcases ht : env.templateResult with e | tmpl
    · simp [buildContent, hc, ht]
    · rcases hf : env.findResult with e | ⟨contents, filenames⟩
      · simp [buildContent, hc, ht, hf]
      · simp [buildContent, hc, ht, hf]

/-- The trace of the preparation phase touches neither the newsfile nor the
VCS: it contains no write, stage or removal effect. -/
theorem buildContent_trace_noWrite (env : Env) (args : Args) (c : Bool) :
    ((buildContent env args c).1.all fun x => !isWriteEffect x) = true := by
  rcases hc : env.configResult with e | ⟨base, config⟩
  · simp [buildContent, hc]
  · rcases ht : env.templateResult with e | tmpl
    · simp [buildContent, hc, ht]
    · rcases hf : env.findResult with e | ⟨contents, filenames⟩
      · simp [buildContent, hc, ht, hf]
      · simp [buildContent, hc, ht, hf]

/-- C1 (counterexample): the claim as stated maps an explicitly empty title
format to the omitted mode, but on the empty title-format string the code
renders the title inline with the fragments (the default), not omitted. -/
theorem C1_empty_title_format_counterexample :
    codeTitleMode
      (titleDecision (PyTitleFormat.pyStr []) "proj" "1.2.3" "2026-01-01") ≠
      spec_claimed_title_mode (PyTitleFormat.pyStr []) := by
  decide

/-- C1 (amended): the title mode is a three-way switch on the configured
title format: a templated (truthy, nonempty) string selects separate
rendering by the caller, an explicitly disabled (`False`) format omits the
title entirely, and an unset (`None`) or empty-string format renders the
title inline with the fragments as the default. -/
theorem C1_title_mode_switch (tf : PyTitleFormat) (n v d : String) :
    codeTitleMode (titleDecision tf n v d) = spec_amended_title_mode tf := by
  cases tf with
  | pyNone => rfl
  | pyFalse => rfl
  | pyStr parts => cases parts with
    | nil => rfl
    | cons p ps => rfl

/-- C3: when both confirmation flags are given, click option processing
echoes the conflict message and aborts the run before the command body is
entered: the resulting trace holds no fragment work at all (no discovery,
no parsing, no rendering, no merge). -/
theorem C3_conflicting_flags (env : Env) (cargs : CliArgs) :
    cliRun env { cargs with answer_yes := some true, answer_keep := some true } =
      ([Effect.echo "You can not choose both --yes and --keep at the same time" false],
        ExitResult.aborted) ∧
    ((cliRun env
        { cargs with answer_yes := some true, answer_keep := some true }).1.all
      fun e => !isFragmentWorkEffect e) = true := by
  exact ⟨rfl, rfl⟩

/-- C5: on the empty fragment list with neither flag set, the removal
decision is to keep (`false`), the only output is the skip notice, and no
confirmation prompt is issued. -/
theorem C5_empty_fragment_list (confirm_answer : Bool) :
    should_remove_fragment_files [] false false confirm_answer =
      (false, [RemovalOut.line "No news fragments to remove. Skipping!"]) ∧
    ((should_remove_fragment_files [] false false confirm_answer).2.all
      fun o => !isConfirmOut o) = true := by
  exact ⟨rfl, rfl⟩

/-- C6: on every non-empty fragment list with the yes flag set and the keep
flag unset, the removal decision is to remove (`true`), and no confirmation
prompt is issued (the outputs are the header followed by the file list). -/
theorem C6_yes_flag_removes (f : String) (fs : List String)
    (confirm_answer : Bool) :
    should_remove_fragment_files (f :: fs) true false confirm_answer =
      (true, RemovalOut.line "Removing the following files:" ::
        (f :: fs).map RemovalOut.line) ∧
    ((should_remove_fragment_files (f :: fs) true false confirm_answer).2.all
      fun o => !isConfirmOut o) = true := by
  refine ⟨rfl, ?_⟩
  simp [should_remove_fragment_files, isConfirmOut, List.all_map, Function.comp]

/-- C7: on every non-empty fragment list with the keep flag set, the removal
decision is to keep (`false`), and the outputs still surface the full file
list after the keep header. -/
theorem C7_keep_flag_audits (f : String) (fs : List String)
    (answer_yes confirm_answer : Bool) :
    should_remove_fragment_files (f :: fs) answer_yes true confirm_answer =
      (false, RemovalOut.line "Keeping the following files:" ::
        (f :: fs).map RemovalOut.line) := by
  simp [should_remove_fragment_files]

/-- C8: `_main` exits with code 1 exactly when the pipeline raised a
configuration error, in which case the error message is echoed to standard
error; a successful pipeline run exits with code 0, and any other exception
propagates rather than using the configuration-error path. -/
theorem C8_config_error_exit (env : Env) (args : Args) :
    (mainCatchRun env args).2 = spec_exit_of (mainRun env args).2 ∧
    (mainCatchRun env args).1 =
      (mainRun env args).1 ++ spec_config_report (mainRun env args).2 := by
  rcases h : mainRun env args with ⟨tr, r⟩
  cases r with
  | ok u => simp [mainCatchRun, h, spec_exit_of, spec_config_report]
  | error e =>
    cases e <;> simp [mainCatchRun, h, spec_exit_of, spec_config_report]

/-- C9: in per-version mode (`single_file` false) the target newsfile name
is the configured filename format with exactly the keys `name`, `version`
and `project_date` substituted; in single-file mode the configured filename
is used verbatim, independent of name, version and date. -/
theorem C9_news_file_naming (cfg : Config) (n v d n2 v2 d2 : String) :
    newsFileName { cfg with single_file := false } n v d =
      renderFmt cfg.filename n v d ∧
    newsFileName { cfg with single_file := true } n v d =
      sourceText cfg.filename ∧
    newsFileName { cfg with single_file := true } n v d =
      newsFileName { cfg with single_file := true } n2 v2 d2 := by
  exact ⟨rfl, rfl, rfl⟩

/-- C10: on every non-empty fragment list, whatever the yes flag's value,
the removal decision with the keep flag set is to keep (`false`): keep takes
precedence over yes, so the function never decides to remove while keep is
set. -/
theorem C10_keep_overrides_yes (f : String) (fs : List String)
    (answer_yes confirm_answer : Bool) :
    (should_remove_fragment_files (f :: fs) answer_yes true confirm_answer).1 =
      false := by
  simp [should_remove_fragment_files]

/-- C2: fragment removal is sequenced strictly after the newsfile merge: in
every run the trace never reaches a `removeFiles` effect before the
`mergeWrite` effect, and when the merge call fails the run stops without any
fragment removal at all. -/
theorem C2_removal_strictly_after_merge (env : Env) (args : Args) (err : Err) :
    removalAfterMerge (mainRun env args).1 = true ∧
    (((mainRun { env with mergeResult := Except.error err } args).1.all
      fun x => !isRemoveEffect x) = true) := by
  constructor
  · have key := buildContent_trace_scan env args args.draft
    simp only [mainRun]
    rcases hb : buildContent env args args.draft with ⟨bt, r⟩
    rw [hb] at key
    cases r with
    | error e => simpa using key []
    | ok p =>
      by_cases hd : args.draft
      · simp [hd, key]
      · rcases hm : env.mergeResult with e | u
        · simp [hd, hm, key, List.append_assoc]
        · rcases hs : env.stageResult with e | u2
          · simp [hd, hm, hs, key, List.append_assoc]
          · simp [hd, hm, hs, key, List.append_assoc]
  · have key := buildContent_trace_noRemove
      { env with mergeResult := Except.error err } args args.draft
    simp only [mainRun]
    rcases hb : buildContent { env with mergeResult := Except.error err }
      args args.draft with ⟨bt, r⟩
    rw [hb] at key
    cases r with
    | error e => simpa using key
    | ok p =>
      by_cases hd : args.draft
      · simp [hd, key]
      · simp [hd, key]

/-- C4: a draft run performs the whole validation and rendering phase
identically to a real run (same outcome and same non-console work steps, the
echo destination apart), then echoes the draft notice and the rendered
content and stops: its trace holds no newsfile write, no VCS staging and no
fragment removal. -/
theorem C4_draft_mode (env : Env) (args : Args) :
    (buildContent env { args with draft := true } true).2 =
      (buildContent env { args with draft := false } false).2 ∧
    workEffects (buildContent env { args with draft := true } true).1 =
      workEffects (buildContent env { args with draft := false } false).1 ∧
    mainRun env { args with draft := true } =
      ((buildContent env { args with draft := true } true).1 ++
        (match (buildContent env { args with draft := true } true).2 with
         | .ok p => [Effect.echo draftNotice true, Effect.echo p.content false]
         | .error _ => []),
       (match (buildContent env { args with draft := true } true).2 with
        | .ok _ => Except.ok ()
        | .error e => Except.error e)) ∧
    (((mainRun env { args with draft := true }).1.all
      fun x => !isWriteEffect x) = true) := by
  have hresult :
      (buildContent env { args with draft := true } true).2 =
        (buildContent env { args with draft := false } false).2 := by
    rcases hc : env.configResult with e | ⟨base, config⟩
    · simp [buildContent, hc]
    · rcases ht : env.templateResult with e | tmpl
      · simp [buildContent, hc, ht]
      · rcases hf : env.findResult with e | ⟨contents, filenames⟩
        · simp [buildContent, hc, ht, hf]
        · simp [buildContent, hc, ht, hf]
  have hwork :
      workEffects (buildContent env { args with draft := true } true).1 =
        workEffects (buildContent env { args with draft := false } false).1 := by
    rcases hc : env.configResult with e | ⟨base, config⟩
    · simp [buildContent, hc]
    · rcases ht : env.templateResult with e | tmpl
      · simp [buildContent, hc, ht, workEffects]
      · rcases hf : env.findResult with e | ⟨contents, filenames⟩
        · simp [buildContent, hc, ht, hf, workEffects]
        · simp [buildContent, hc, ht, hf, workEffects]
  have hrun :
      mainRun env { args with draft := true } =
        ((buildContent env { args with draft := true } true).1 ++
          (match (buildContent env { args with draft := true } true).2 with
           | .ok p => [Effect.echo draftNotice true, Effect.echo p.content false]
           | .error _ => []),
         (match (buildContent env { args with draft := true } true).2 with
          | .ok _ => Except.ok ()
          | .error e => Except.error e)) := by
    simp only [mainRun]
    rcases hb : buildContent env { args with draft := true } true with ⟨bt, r⟩
    cases r with
    | error e => simp [hb]
    | ok p => simp [hb]
  refine ⟨hresult, hwork, hrun, ?_⟩
  have key := buildContent_trace_noWrite env { args with draft := true } true
  rw [hrun]
  rcases hb : buildContent env { args with draft := true } true with ⟨bt, r⟩
  rw [hb] at key
  cases r with
  | error e => simpa using key
  | ok p => simp [key]

end Towncrier
